import Mathlib

/-!
Shallow embedding of the annotation edit-and-commit workflow of
`coretk/dialogs/shapemod.py` (class `ShapeDialog`).

Pure translation scheme: the Tk widgets are dropped; the dialog's
tk-variables and color fields become the fields of `ShapeDialog` (the
"EditSession"); the mutable `Shape` objects live in a small heap indexed by
`Ref` so that Python reference aliasing (the same object reachable through
`self.shape` and through the canvas registries) is preserved; every method
becomes a state-passing function, and methods that can raise
(`KeyError` on a registry lookup, `TclError` on a canvas call with an
unknown item id) return `Option`.
-/

namespace Shapemod

/-- One entry of the font descriptor list built by `make_font`:
a Tk font spec is a heterogeneous list of strings and an integer size. -/
inductive FontItem where
  | str (s : String)
  | num (n : Int)
deriving DecidableEq, Repr

/-- Modelled from the spec: the StyleData record owned by a Shape
(`shape.shape_data`), holding the nine/ten persisted style attributes that
`save_text` and `save_shape` write.  Colors are `Option String` because the
color-chooser result (`color[1]`) is `None` when the prompt is cancelled and
the code stores it as-is. -/
structure StyleData where
  text : String
  font : String
  font_size : Int
  text_color : Option String
  fill_color : Option String
  border_color : Option String
  border_width : Int
  bold : Int
  italic : Int
  underline : Int
deriving DecidableEq, Repr

/-- A heap address for a `Shape` object (Python object identity). -/
abbrev Ref := Nat

/-- Modelled from the spec: the Shape annotation object handed to the dialog
(`self.shape`), with exactly the attributes `shapemod.py` reads and writes:
`id`, origin `x0`/`y0`, the canvas id of its text element (`text_id`,
`None` before first commit), the `created` flag and its `shape_data`. -/
structure Shape where
  id : Int
  x0 : Rat
  y0 : Rat
  text_id : Option Int
  created : Bool
  shape_data : StyleData

/-- Modelled from the spec: one element of the external drawing surface, with
the attributes `shapemod.py` configures or queries: position, bounding box
(`canvas.bbox`), text content, fill, outline, width, dash, font and tags.
For a text element the bounding box is computed by the toolkit from the
rendered extent; it is never queried here, so fresh text elements carry a
zero box. -/
structure CanvasItem where
  x : Rat
  y : Rat
  bx0 : Int
  by0 : Int
  bx1 : Int
  by1 : Int
  text : String
  fill : Option String
  outline : Option String
  width : Int
  dash : String
  font : List FontItem
  tags : String

/-- Modelled from the spec: the external canvas surface plus the Python
object store.  `items` is the drawing surface (id to element), `nextItem`
the toolkit's fresh-id counter, `shapes` and `texts` the id-to-annotation
registries (storing references, as Python dicts store objects), and `heap`
the store of live `Shape` objects. -/
structure CanvasState where
  heap : Ref → Shape
  items : Int → Option CanvasItem
  nextItem : Int
  shapes : Int → Option Ref
  texts : Int → Option Ref

/-- Write one `Shape` object in the store (a Python attribute mutation). -/
def writeHeap (st : CanvasState) (r : Ref) (a : Shape) : CanvasState :=
  { st with heap := fun r2 => if r2 = r then a else st.heap r2 }

/-- `canvas.create_text(x, y, text=..., fill=..., font=..., tags=...)`:
allocates the next item id and stores a new text element there.  The
toolkit returns the new id, which is the canvas's `nextItem` counter. -/
def create_text (st : CanvasState) (x y : Rat) (text : String)
    (fill : Option String) (fnt : List FontItem) (tags : String) :
    Int × CanvasState :=
  let tid := st.nextItem
  (tid,
    { st with
      nextItem := tid + 1
      items := fun j =>
        if j = tid then
          some { x := x, y := y, bx0 := 0, by0 := 0, bx1 := 0, by1 := 0,
                 text := text, fill := fill, outline := none, width := 0,
                 dash := "", font := fnt, tags := tags }
        else st.items j })

/-- The annotation kind held by `app.canvas.annotation_type`
(the `ImageEnum` members the dialog distinguishes). -/
inductive AnnotationKind where
  | oval
  | rectangle
  | text
deriving DecidableEq, Repr

/-- The EditSession: the dialog's working state.  `annotation_type` and the
reference to `self.shape` are fixed at construction; the remaining fields
mirror the tk variables (`shape_text`, `font`, `font_size`, `border_width`,
`bold`, `italic`, `underline`) and the plain attributes (`text_color`,
`fill_color`, `border_color`).  `id` is set from `shape.id` only in the
shape branch of `__init__` and is rebound by `add_text`. -/
structure ShapeDialog where
  annotation_type : AnnotationKind
  id : Option Int
  shapeRef : Ref
  shape_text : String
  font : String
  font_size : Int
  text_color : Option String
  fill_color : Option String
  border_color : Option String
  border_width : Int
  bold : Int
  italic : Int
  underline : Int

/-- `is_shape`: `annotation_type == ImageEnum.OVAL or annotation_type ==
ImageEnum.RECTANGLE`. -/
def is_shape (d : ShapeDialog) : Bool :=
  match d.annotation_type with
  | AnnotationKind.oval => true
  | AnnotationKind.rectangle => true
  | AnnotationKind.text => false

/-- `is_text`: `annotation_type == ImageEnum.TEXT`. -/
def is_text (d : ShapeDialog) : Bool :=
  match d.annotation_type with
  | AnnotationKind.text => true
  | _ => false

/-- `ShapeDialog.__init__`: seeds the EditSession from the annotation's
current `shape_data`; `self.id` is set only for the shape variant. -/
def mkDialog (atype : AnnotationKind) (r : Ref) (st : CanvasState) :
    ShapeDialog :=
  let sh := st.heap r
  { annotation_type := atype
    id := if atype = AnnotationKind.oval ∨ atype = AnnotationKind.rectangle
          then some sh.id else none
    shapeRef := r
    shape_text := sh.shape_data.text
    font := sh.shape_data.font
    font_size := sh.shape_data.font_size
    text_color := sh.shape_data.text_color
    fill_color := sh.shape_data.fill_color
    border_color := sh.shape_data.border_color
    border_width := sh.shape_data.border_width
    bold := sh.shape_data.bold
    italic := sh.shape_data.italic
    underline := sh.shape_data.underline }

/-- `choose_text_color`: `color = colorchooser.askcolor(color="black");
self.text_color = color[1]`.  The prompt's outcome is the parameter `res`
(`none` when the user cancels, since `askcolor` then returns
`(None, None)`); the code stores `color[1]` unconditionally. -/
def choose_text_color (res : Option String) (d : ShapeDialog) : ShapeDialog :=
  { d with text_color := res }

/-- `choose_fill_color` (the swatch-widget update is dropped). -/
def choose_fill_color (res : Option String) (d : ShapeDialog) : ShapeDialog :=
  { d with fill_color := res }

/-- `choose_border_color` (the swatch-widget update is dropped). -/
def choose_border_color (res : Option String) (d : ShapeDialog) : ShapeDialog :=
  { d with border_color := res }

/-- `cancel`: `if self.is_shape() and not self.canvas.shapes[self.id].created:
canvas.delete(self.id); canvas.shapes.pop(self.id)`.  The registry lookup
raises `KeyError` when the id is absent (`none` result); reading `self.id`
before the shape branch of `__init__` ran raises too. -/
def cancel (d : ShapeDialog) (st : CanvasState) : Option CanvasState :=
  if is_shape d then
    match d.id with
    | none => none
    | some i =>
      match st.shapes i with
      | none => none
      | some r =>
        if (st.heap r).created = false then
          some { st with
                 items := fun j => if j = i then none else st.items j
                 shapes := fun j => if j = i then none else st.shapes j }
        else some st
  else some st

/-- `make_font`: `[family, int(size)]` then `"bold"`, `"italic"`,
`"underline"` appended in that order when the corresponding flag is 1. -/
def make_font (d : ShapeDialog) : List FontItem :=
  let size := d.font_size
  let tf := [FontItem.str d.font, FontItem.num size]
  let tf := if d.bold = 1 then tf ++ [FontItem.str "bold"] else tf
  let tf := if d.italic = 1 then tf ++ [FontItem.str "italic"] else tf
  let tf := if d.underline = 1 then tf ++ [FontItem.str "underline"] else tf
  tf

/-- `save_text`: writes the seven text-related StyleData fields of
`self.shape.shape_data` from the EditSession. -/
def save_text (d : ShapeDialog) (st : CanvasState) : CanvasState :=
  let sh := st.heap d.shapeRef
  writeHeap st d.shapeRef
    { sh with shape_data :=
      { sh.shape_data with
        text := d.shape_text
        font := d.font
        font_size := d.font_size
        text_color := d.text_color
        bold := d.bold
        italic := d.italic
        underline := d.underline } }

/-- `save_shape`: writes the three shape-only StyleData fields. -/
def save_shape (d : ShapeDialog) (st : CanvasState) : CanvasState :=
  let sh := st.heap d.shapeRef
  writeHeap st d.shapeRef
    { sh with shape_data :=
      { sh.shape_data with
        fill_color := d.fill_color
        border_color := d.border_color
        border_width := d.border_width } }

/-- `add_text`: when `self.shape.text_id is None`, creates one text element
at `(shape.x0, shape.y0)` with the session's text, color and font, rebinds
`shape.text_id`, `self.id` and `shape.id` to the new id, registers the
shape in `canvas.texts`, and sets `created = True`; in both cases
`save_text` runs last. -/
def add_text (d : ShapeDialog) (st : CanvasState) : ShapeDialog × CanvasState :=
  let text := d.shape_text
  let sh := st.heap d.shapeRef
  let x := sh.x0
  let y := sh.y0
  let text_font := make_font d
  match sh.text_id with
  | none =>
    let ts := create_text st x y text d.text_color text_font "text"
    let tid := ts.1
    let st1 := ts.2
    let d1 := { d with id := some tid }
    let st2 := writeHeap st1 d.shapeRef
      { sh with text_id := some tid, id := tid, created := true }
    let st3 := { st2 with
                 texts := fun j => if j = tid then some d.shapeRef
                                   else st2.texts j }
    (d1, save_text d1 st3)
  | some _ => (d, save_text d st)

/-- `add_shape`: re-configures the shape element (fill, dash, outline,
width), queries its bounding box, computes the label anchor
`((x0 + x1) / 2, y0 + 1.5 * size)`, creates the label text element there
when `text_id is None` (setting `created = True`) or re-configures the
existing one, then runs `save_text` and `save_shape`.  Canvas calls on an
unknown item id raise, hence the `Option`. -/
def add_shape (d : ShapeDialog) (st : CanvasState) :
    Option (ShapeDialog × CanvasState) :=
  match d.id with
  | none => none
  | some i =>
    match st.items i with
    | none => none
    | some item =>
      let item1 := { item with
                     fill := d.fill_color
                     dash := ""
                     outline := d.border_color
                     width := d.border_width }
      let st1 := { st with
                   items := fun j => if j = i then some item1
                                     else st.items j }
      let shape_text := d.shape_text
      let size := d.font_size
      let yA : Rat := (item1.by0 : Rat) + (1.5 : Rat) * (size : Rat)
      let xA : Rat := ((item1.bx0 : Rat) + (item1.bx1 : Rat)) / 2
      let text_font := make_font d
      let sh := st1.heap d.shapeRef
      match sh.text_id with
      | none =>
        let ts := create_text st1 xA yA shape_text d.text_color text_font
          "shapetext"
        let st2 := writeHeap ts.2 d.shapeRef
          { sh with text_id := some ts.1, created := true }
        some (d, save_shape d (save_text d st2))
      | some tlId =>
        match st1.items tlId with
        | none => none
        | some tItem =>
          let st2 := { st1 with
                       items := fun j =>
                         if j = tlId then
                           some { tItem with
                                  text := shape_text
                                  fill := d.text_color
                                  font := text_font }
                         else st1.items j }
          some (d, save_shape d (save_text d st2))

/-- `click_add`: dispatch on the variant, then the dialog closes. -/
def click_add (d : ShapeDialog) (st : CanvasState) :
    Option (ShapeDialog × CanvasState) :=
  if is_shape d then add_shape d st
  else if is_text d then some (add_text d st)
  else some (d, st)

/-- One user editing action on the open form: a tk-variable write (text,
font, size, flags, border width) or one of the three color-chooser
commands with the prompt's outcome. -/
inductive EditOp where
  | setText (s : String)
  | setFont (s : String)
  | setFontSize (n : Int)
  | setBold (n : Int)
  | setItalic (n : Int)
  | setUnderline (n : Int)
  | setBorderWidth (n : Int)
  | chooseText (res : Option String)
  | chooseFill (res : Option String)
  | chooseBorder (res : Option String)

/-- Effect of one editing action on the dialog-and-canvas pair: every
editing handler touches only the EditSession (tk variables or the
dialog's color attributes), never the canvas or the annotation store. -/
def applyEdit (op : EditOp) (p : ShapeDialog × CanvasState) :
    ShapeDialog × CanvasState :=
  match op with
  | EditOp.setText s => ({ p.1 with shape_text := s }, p.2)
  | EditOp.setFont s => ({ p.1 with font := s }, p.2)
  | EditOp.setFontSize n => ({ p.1 with font_size := n }, p.2)
  | EditOp.setBold n => ({ p.1 with bold := n }, p.2)
  | EditOp.setItalic n => ({ p.1 with italic := n }, p.2)
  | EditOp.setUnderline n => ({ p.1 with underline := n }, p.2)
  | EditOp.setBorderWidth n => ({ p.1 with border_width := n }, p.2)
  | EditOp.chooseText res => (choose_text_color res p.1, p.2)
  | EditOp.chooseFill res => (choose_fill_color res p.1, p.2)
  | EditOp.chooseBorder res => (choose_border_color res p.1, p.2)

/-- Run a sequence of editing actions. -/
def runEdits (ops : List EditOp) (p : ShapeDialog × CanvasState) :
    ShapeDialog × CanvasState :=
  ops.foldl (fun q op => applyEdit op q) p

/-! Concrete states used to instantiate the theorems below. -/

/-- A sample StyleData record. -/
def sd0 : StyleData :=
  { text := "t0", font := "TkDefaultFont", font_size := 12,
    text_color := some "black", fill_color := some "#CFCFFF",
    border_color := some "black", border_width := 0,
    bold := 0, italic := 0, underline := 0 }

/-- An uncommitted rectangle annotation (canvas placeholder id 1). -/
def shape0 : Shape :=
  { id := 1, x0 := 10, y0 := 20, text_id := none, created := false,
    shape_data := sd0 }

/-- The placeholder rectangle element, bounding box (10, 20, 50, 60). -/
def item0 : CanvasItem :=
  { x := 10, y := 20, bx0 := 10, by0 := 20, bx1 := 50, by1 := 60,
    text := "", fill := none, outline := some "black", width := 0,
    dash := "-", font := [], tags := "shape" }

/-- Canvas holding the placeholder rectangle, registered under id 1. -/
def st0 : CanvasState :=
  { heap := fun _ => shape0
    items := fun j => if j = 1 then some item0 else none
    nextItem := 2
    shapes := fun j => if j = 1 then some 0 else none
    texts := fun _ => none }

/-- A shape-variant EditSession over `shape0` with every field edited. -/
def dShape0 : ShapeDialog :=
  { annotation_type := AnnotationKind.rectangle, id := some 1, shapeRef := 0,
    shape_text := "hello", font := "Arial", font_size := 10,
    text_color := some "#FF0000", fill_color := some "#00FF00",
    border_color := some "#0000FF", border_width := 3,
    bold := 1, italic := 0, underline := 1 }

/-- Result of committing `dShape0` over `st0`. -/
def commitRes0 : ShapeDialog × CanvasState :=
  (click_add dShape0 st0).getD (dShape0, st0)

/-- Result of cancelling `dShape0` over `st0`. -/
def cancelRes0 : CanvasState :=
  (cancel dShape0 st0).getD st0

/-- `st0` after its shape was committed once (`created = true`). -/
def stC1 : CanvasState :=
  { st0 with heap := fun _ => { shape0 with created := true } }

/-- An uncommitted text annotation: no canvas element yet. -/
def shapeT0 : Shape :=
  { id := 5, x0 := 7, y0 := 9, text_id := none, created := false,
    shape_data := sd0 }

/-- Canvas for the text-variant examples: empty surface, counter at 4. -/
def stT0 : CanvasState :=
  { heap := fun _ => shapeT0
    items := fun _ => none
    nextItem := 4
    shapes := fun _ => none
    texts := fun _ => none }

/-- A text-variant EditSession over `shapeT0`. -/
def dText0 : ShapeDialog :=
  { annotation_type := AnnotationKind.text, id := none, shapeRef := 0,
    shape_text := "hi", font := "Courier", font_size := 14,
    text_color := some "#112233", fill_color := some "black",
    border_color := some "black", border_width := 0,
    bold := 0, italic := 1, underline := 0 }

/-- Result of committing `dText0` over `stT0`. -/
def textRes0 : ShapeDialog × CanvasState :=
  (click_add dText0 stT0).getD (dText0, stT0)

/-- An already-created text annotation bound to canvas element 3. -/
def shapeT1 : Shape :=
  { id := 3, x0 := 7, y0 := 9, text_id := some 3, created := true,
    shape_data := sd0 }

/-- The existing rendered text element for `shapeT1`. -/
def itemT1 : CanvasItem :=
  { x := 7, y := 9, bx0 := 0, by0 := 0, bx1 := 0, by1 := 0,
    text := "t0", fill := some "black", outline := none, width := 0,
    dash := "", font := [FontItem.str "TkDefaultFont", FontItem.num 12],
    tags := "text" }

/-- Canvas for the re-edit-of-text example. -/
def stT1 : CanvasState :=
  { heap := fun _ => shapeT1
    items := fun j => if j = 3 then some itemT1 else none
    nextItem := 4
    shapes := fun _ => none
    texts := fun j => if j = 3 then some 0 else none }

/-- Result of committing `dText0` over `stT1` (element already exists). -/
def textRes1 : ShapeDialog × CanvasState :=
  (click_add dText0 stT1).getD (dText0, stT1)

/-- A session whose staged text color is "black". -/
def dBlack : ShapeDialog :=
  { dText0 with text_color := some "black" }

/-- The session of the spec's font example: Arial 12, bold and underline. -/
def dArial : ShapeDialog :=
  { dText0 with
    font := "Arial"
    font_size := 12
    bold := 1
    italic := 0
    underline := 1 }

/-! Theorems. -/

/-- A single editing action never changes the canvas-and-annotation state. -/
theorem applyEdit_snd (op : EditOp) (p : ShapeDialog × CanvasState) :
    (applyEdit op p).2 = p.2 := by
  cases op <;> rfl

/-- A sequence of editing actions never changes the canvas-and-annotation
state. -/
theorem runEdits_snd (ops : List EditOp) (p : ShapeDialog × CanvasState) :
    (runEdits ops p).2 = p.2 := by
  induction ops generalizing p with
  | nil => rfl
  | cons op rest ih =>
      show (runEdits rest (applyEdit op p)).2 = p.2
      rw [ih (applyEdit op p), applyEdit_snd]

/-- Claim C6: during an editing session, no sequence of field edits or
color-chooser actions changes the canvas state, and in particular the
annotation's `shape_data` is untouched before a commit: only `click_add`
writes EditSession values into it. -/
theorem c6_edits_never_touch_style (d : ShapeDialog) (st : CanvasState)
    (ops : List EditOp) :
    (runEdits ops (d, st)).2 = st ∧
    ((runEdits ops (d, st)).2.heap d.shapeRef).shape_data =
      (st.heap d.shapeRef).shape_data := by
  have h := runEdits_snd ops (d, st)
  exact ⟨h, by rw [h]⟩

/-- Claim C7 (code bug): cancelling the color prompt makes `askcolor` return
`(None, None)`, and each chooser stores `color[1]` unconditionally, so the
staged color is overwritten with `None` instead of being left unchanged. -/
theorem c7_cancelled_prompt_overwrites_color :
    dBlack.text_color = some "black" ∧
    (choose_text_color none dBlack).text_color = none ∧
    (choose_fill_color none dBlack).fill_color = none ∧
    (choose_border_color none dBlack).border_color = none :=
  ⟨rfl, rfl, rfl, rfl⟩

/-- Claim C8: the derived font descriptor is the family and integer size
followed by "bold", "italic", "underline" in that fixed order, each present
exactly when its flag is 1; on Arial 12 with bold and underline set it is
`["Arial", 12, "bold", "underline"]`. -/
theorem c8_make_font_descriptor :
    (∀ d : ShapeDialog,
      make_font d =
        [FontItem.str d.font, FontItem.num d.font_size]
          ++ (if d.bold = 1 then [FontItem.str "bold"] else [])
          ++ (if d.italic = 1 then [FontItem.str "italic"] else [])
          ++ (if d.underline = 1 then [FontItem.str "underline"] else [])) ∧
    make_font dArial =
      [FontItem.str "Arial", FontItem.num 12, FontItem.str "bold",
       FontItem.str "underline"] := by
  constructor
  · intro d
    unfold make_font
    by_cases hb : d.bold = 1 <;> by_cases hi : d.italic = 1 <;>
      by_cases hu : d.underline = 1 <;> simp [hb, hi, hu]
  · rfl

/-- A text-variant dialog is not a shape-variant dialog. -/
theorem is_text_shape_false (d : ShapeDialog) (ht : is_text d = true) :
    is_shape d = false := by
  cases hk : d.annotation_type
  · simp [is_text, hk] at ht
  · simp [is_text, hk] at ht
  · simp [is_shape, hk]

/-- On a text-variant dialog, `click_add` runs `add_text`. -/
theorem click_add_text (d : ShapeDialog) (st : CanvasState)
    (ht : is_text d = true) : click_add d st = some (add_text d st) := by
  simp [click_add, is_text_shape_false d ht, ht]

/-- Claim C3: committing a text-variant editor whose annotation already has
a canvas element leaves every canvas element untouched (the known no-op),
while still persisting the session's text StyleData fields into the
annotation's `shape_data`. -/
theorem c3_text_recommit_preserves_canvas (d : ShapeDialog)
    (st : CanvasState) (d' : ShapeDialog) (st' : CanvasState) (tlId : Int)
    (ht : is_text d = true)
    (hsome : (st.heap d.shapeRef).text_id = some tlId)
    (h : click_add d st = some (d', st')) :
    st'.items = st.items ∧
    (st'.heap d.shapeRef).shape_data.text = d.shape_text ∧
    (st'.heap d.shapeRef).shape_data.font = d.font ∧
    (st'.heap d.shapeRef).shape_data.font_size = d.font_size ∧
    (st'.heap d.shapeRef).shape_data.text_color = d.text_color ∧
    (st'.heap d.shapeRef).shape_data.bold = d.bold ∧
    (st'.heap d.shapeRef).shape_data.italic = d.italic ∧
    (st'.heap d.shapeRef).shape_data.underline = d.underline := by
  rw [click_add_text d st ht, Option.some.injEq] at h
  rw [add_text] at h
  simp only [hsome] at h
  rw [Prod.mk.injEq] at h
  obtain ⟨hd, hst⟩ := h
  subst hst
  simp [save_text, writeHeap]

/-- Claim C2: committing a text-variant editor whose annotation has no
canvas element yet creates exactly one new text element (at the fresh id)
positioned at the annotation's origin with the session's text, color and
font, binds it to the annotation, and sets `created = true`; every other
canvas element is untouched. -/
theorem c2_text_commit_creates_element (d : ShapeDialog) (st : CanvasState)
    (d' : ShapeDialog) (st' : CanvasState)
    (ht : is_text d = true)
    (hnone : (st.heap d.shapeRef).text_id = none)
    (hfresh : st.items st.nextItem = none)
    (h : click_add d st = some (d', st')) :
    st.items st.nextItem = none ∧
    (st'.items st.nextItem).map
        (fun it => (it.x, it.y, it.text, it.fill, it.font)) =
      some ((st.heap d.shapeRef).x0, (st.heap d.shapeRef).y0,
            d.shape_text, d.text_color, make_font d) ∧
    (st'.heap d.shapeRef).text_id = some st.nextItem ∧
    (st'.heap d.shapeRef).created = true ∧
    ∀ j, j ≠ st.nextItem → st'.items j = st.items j := by
  rw [click_add_text d st ht, Option.some.injEq] at h
  rw [add_text] at h
  simp only [hnone] at h
  rw [Prod.mk.injEq] at h
  obtain ⟨hd, hst⟩ := h
  subst hst
  refine ⟨hfresh, ?_, ?_, ?_, ?_⟩
  · simp [save_text, writeHeap, create_text]
  · simp [save_text, writeHeap, create_text]
  · simp [save_text, writeHeap, create_text]
  · intro j hj
    simp [save_text, writeHeap, create_text, hj]

/-- Claim C10: a text-variant commit that creates a new canvas element
rebinds the annotation's `id` and `text_id` to the new element id and
registers the annotation in the `texts` registry under that id, so the
registry lookup at the new id yields this annotation. -/
theorem c10_text_commit_rebinds_id (d : ShapeDialog) (st : CanvasState)
    (d' : ShapeDialog) (st' : CanvasState)
    (ht : is_text d = true)
    (hnone : (st.heap d.shapeRef).text_id = none)
    (h : click_add d st = some (d', st')) :
    (st'.heap d.shapeRef).id = st.nextItem ∧
    (st'.heap d.shapeRef).text_id = some st.nextItem ∧
    st'.texts st.nextItem = some d.shapeRef := by
  rw [click_add_text d st ht, Option.some.injEq] at h
  rw [add_text] at h
  simp only [hnone] at h
  rw [Prod.mk.injEq] at h
  obtain ⟨hd, hst⟩ := h
  subst hst
  refine ⟨?_, ?_, ?_⟩ <;> simp [save_text, writeHeap, create_text]

/-- Witness for C3 at a concrete already-created text annotation. -/
theorem c3_witness :
    is_text dText0 = true ∧
    (stT1.heap dText0.shapeRef).text_id = some 3 ∧
    textRes1.2.items = stT1.items ∧
    (textRes1.2.heap dText0.shapeRef).shape_data.text = "hi" ∧
    (textRes1.2.heap dText0.shapeRef).shape_data.text_color =
      some "#112233" := by
  have H := c3_text_recommit_preserves_canvas dText0 stT1 textRes1.1
    textRes1.2 3 rfl rfl rfl
  exact ⟨rfl, rfl, H.1, H.2.1, H.2.2.2.2.1⟩

/-- Witness for C2 at a concrete fresh text annotation. -/
theorem c2_witness :
    is_text dText0 = true ∧
    (stT0.heap dText0.shapeRef).text_id = none ∧
    stT0.items stT0.nextItem = none ∧
    (textRes0.2.items 4).map
        (fun it => (it.x, it.y, it.text, it.fill, it.font)) =
      some ((7 : Rat), (9 : Rat), "hi", some "#112233",
        [FontItem.str "Courier", FontItem.num 14, FontItem.str "italic"]) ∧
    (textRes0.2.heap 0).created = true := by
  have H := c2_text_commit_creates_element dText0 stT0 textRes0.1
    textRes0.2 rfl rfl rfl rfl
  exact ⟨rfl, rfl, rfl, H.2.1, H.2.2.2.1⟩

/-- Witness for C10 at a concrete fresh text annotation. -/
theorem c10_witness :
    is_text dText0 = true ∧
    (stT0.heap dText0.shapeRef).text_id = none ∧
    (textRes0.2.heap 0).id = 4 ∧
    (textRes0.2.heap 0).text_id = some 4 ∧
    textRes0.2.texts 4 = some 0 := by
  have H := c10_text_commit_rebinds_id dText0 stT0 textRes0.1 textRes0.2
    rfl rfl rfl
  exact ⟨rfl, rfl, H.1, H.2.1, H.2.2⟩

/-- On a shape-variant dialog, `click_add` runs `add_shape`. -/
theorem click_add_shape (d : ShapeDialog) (st : CanvasState)
    (hs : is_shape d = true) : click_add d st = add_shape d st := by
  simp [click_add, hs]

/-- Claim C1: committing a shape-variant editor leaves the annotation's
`created` flag true and persists every staged StyleData field (text, font,
size, the three style flags, text color, fill color, border color, border
width) exactly as held in the EditSession.  The hypothesis `hlife` is the
lifecycle invariant: a shape that already owns a label element has been
committed before (`created = true`), which holds for the placeholder the
caller creates (`text_id = None`, `created = False`) and is preserved by
every commit. -/
theorem c1_shape_commit_persists (d : ShapeDialog) (st : CanvasState)
    (d' : ShapeDialog) (st' : CanvasState)
    (hs : is_shape d = true)
    (hlife : (st.heap d.shapeRef).text_id ≠ none →
      (st.heap d.shapeRef).created = true)
    (h : click_add d st = some (d', st')) :
    (st'.heap d.shapeRef).created = true ∧
    (st'.heap d.shapeRef).shape_data =
      { text := d.shape_text, font := d.font, font_size := d.font_size,
        text_color := d.text_color, fill_color := d.fill_color,
        border_color := d.border_color, border_width := d.border_width,
        bold := d.bold, italic := d.italic, underline := d.underline } := by
  rw [click_add_shape d st hs, add_shape] at h
  split at h
  · simp at h
  · split at h
    · simp at h
    · simp only [] at h
      split at h
      · rw [Option.some.injEq, Prod.mk.injEq] at h
        obtain ⟨hd, hst⟩ := h
        subst hst
        constructor
        · simp [save_shape, save_text, writeHeap, create_text]
        · simp [save_shape, save_text, writeHeap, create_text]
      · rename_i tlId heq
        split at h
        · simp at h
        · rw [Option.some.injEq, Prod.mk.injEq] at h
          obtain ⟨hd, hst⟩ := h
          subst hst
          have hcr : (st.heap d.shapeRef).created = true := by
            apply hlife
            rw [heq]
            simp
          constructor
          · simp [save_shape, save_text, writeHeap, hcr]
          · simp [save_shape, save_text, writeHeap]

/-- Claim C9: the label anchor computed during a shape commit that creates
the label element is the horizontal middle of the shape's bounding box and
1.5 font sizes below its top edge: the fresh text element lands at
`((bx0 + bx1) / 2, by0 + 1.5 * size)`. -/
theorem c9_label_anchor (d : ShapeDialog) (st : CanvasState)
    (d' : ShapeDialog) (st' : CanvasState) (i : Int) (item : CanvasItem)
    (hs : is_shape d = true)
    (hid : d.id = some i)
    (hit : st.items i = some item)
    (htid : (st.heap d.shapeRef).text_id = none)
    (h : click_add d st = some (d', st')) :
    (st'.items st.nextItem).map (fun it => (it.x, it.y)) =
      some (((item.bx0 : Rat) + (item.bx1 : Rat)) / 2,
            (item.by0 : Rat) + (1.5 : Rat) * (d.font_size : Rat)) := by
  rw [click_add_shape d st hs, add_shape] at h
  split at h
  · simp at h
  · rename_i i2 hid2
    rw [hid] at hid2
    rw [Option.some.injEq] at hid2
    subst hid2
    split at h
    · rename_i hit2
      rw [hit] at hit2
      simp at hit2
    · rename_i item2 hit2
      rw [hit, Option.some.injEq] at hit2
      subst hit2
      simp only [] at h
      split at h
      · rw [Option.some.injEq, Prod.mk.injEq] at h
        obtain ⟨hd, hst⟩ := h
        subst hst
        simp [save_shape, save_text, writeHeap, create_text]
      · rename_i tlId heq
        rw [htid] at heq
        simp at heq

/-- Claim C4: cancelling a shape-variant editor whose annotation is not yet
committed deletes the placeholder canvas element and drops the annotation
from the `shapes` registry. -/
theorem c4_cancel_uncreated_shape_removes (d : ShapeDialog)
    (st : CanvasState) (i : Int)
    (hs : is_shape d = true)
    (hid : d.id = some i)
    (hreg : st.shapes i = some d.shapeRef)
    (hcr : (st.heap d.shapeRef).created = false)
    (st' : CanvasState)
    (h : cancel d st = some st') :
    st'.items i = none ∧ st'.shapes i = none := by
  rw [cancel] at h
  rw [hs] at h
  simp only [if_true] at h
  rw [hid] at h
  dsimp only [] at h
  rw [hreg] at h
  dsimp only [] at h
  rw [hcr] at h
  simp only [if_true, reduceIte, Option.some.injEq] at h
  subst h
  constructor <;> simp

/-- Claim C5: cancelling a shape-variant editor whose annotation is already
committed, or any text-variant editor, returns the state unchanged: nothing
is persisted and nothing is deleted. -/
theorem c5_cancel_noop (d : ShapeDialog) (st : CanvasState)
    (h : (is_shape d = true ∧ ∃ i, d.id = some i ∧
            st.shapes i = some d.shapeRef ∧
            (st.heap d.shapeRef).created = true) ∨
         is_text d = true) :
    cancel d st = some st := by
  rcases h with ⟨hs, i, hid, hreg, hcr⟩ | ht
  · rw [cancel, hs]
    simp only [if_true]
    rw [hid]
    dsimp only []
    rw [hreg]
    dsimp only []
    rw [hcr]
    simp
  · rw [cancel, is_text_shape_false d ht]
    simp

/-- Witness for C1 at a concrete uncommitted rectangle. -/
theorem c1_witness :
    is_shape dShape0 = true ∧
    (commitRes0.2.heap dShape0.shapeRef).created = true ∧
    (commitRes0.2.heap dShape0.shapeRef).shape_data =
      { text := "hello", font := "Arial", font_size := 10,
        text_color := some "#FF0000", fill_color := some "#00FF00",
        border_color := some "#0000FF", border_width := 3,
        bold := 1, italic := 0, underline := 1 } := by
  have H := c1_shape_commit_persists dShape0 st0 commitRes0.1 commitRes0.2
    rfl (fun hcon => absurd rfl hcon) rfl
  exact ⟨rfl, H.1, H.2⟩

/-- Witness for C9: bounding box (10, 20, 50, 60) and size 10 put the label
at (30, 35). -/
theorem c9_witness :
    is_shape dShape0 = true ∧
    dShape0.id = some 1 ∧
    st0.items 1 = some item0 ∧
    (st0.heap dShape0.shapeRef).text_id = none ∧
    (commitRes0.2.items st0.nextItem).map (fun it => (it.x, it.y)) =
      some ((30 : Rat), (35 : Rat)) := by
  have H := c9_label_anchor dShape0 st0 commitRes0.1 commitRes0.2 1 item0
    rfl rfl rfl rfl rfl
  refine ⟨rfl, rfl, rfl, rfl, ?_⟩
  rw [H]
  norm_num [item0, dShape0]

/-- Witness for C4 at a concrete uncommitted rectangle. -/
theorem c4_witness :
    is_shape dShape0 = true ∧
    dShape0.id = some 1 ∧
    st0.shapes 1 = some dShape0.shapeRef ∧
    (st0.heap dShape0.shapeRef).created = false ∧
    cancelRes0.items 1 = none ∧ cancelRes0.shapes 1 = none := by
  have H := c4_cancel_uncreated_shape_removes dShape0 st0 1 rfl rfl rfl rfl
    cancelRes0 rfl
  exact ⟨rfl, rfl, rfl, rfl, H.1, H.2⟩

/-- Witness for C5 at a committed rectangle. -/
theorem c5_witness :
    is_shape dShape0 = true ∧
    (stC1.heap dShape0.shapeRef).created = true ∧
    cancel dShape0 stC1 = some stC1 :=
  ⟨rfl, rfl, c5_cancel_noop dShape0 stC1 (Or.inl ⟨rfl, 1, rfl, rfl, rfl⟩)⟩

end Shapemod
